import Mathlib

/-
Verification of the ShadePlan (urban-cooling) frontend logic.

The scores carried by zones are JavaScript numbers that the code only ever
compares against integer thresholds, so they are embedded as rationals (Rat),
on which all the comparisons in the source are exact. Hex color strings are
embedded as Lean String literals. Optional TypeScript fields become Option.
-/

namespace UrbanCooling

/-- The color mode selector of ShadeLayer, from
frontend/app/components/ShadeLayer.tsx line 8:
type ColorMode = coverage | deficit | combined | heat. -/
inductive ColorMode
  | coverage
  | deficit
  | combined
  | heat
deriving DecidableEq, Repr

/-- The view mode of the map, from frontend/app/components/ViewToggle.tsx line 3:
type ViewMode = heat | shade | combined. -/
inductive ViewMode
  | heat
  | shade
  | combined
deriving DecidableEq, Repr

/-- GeoJSON-style polygon geometry, from frontend/app/types/index.ts.
The field named type in the source is gtype here; coordinates is a list of
rings, each ring a list of [lon, lat] pairs. -/
structure Geometry where
  gtype : String
  coordinates : List (List (Rat × Rat))
deriving DecidableEq, Repr

/-- A zone center point, from the ShadeZone interface in
frontend/app/types/index.ts. -/
structure Center where
  lat : Rat
  lon : Rat
deriving DecidableEq, Repr

/-- The HeatZone interface of frontend/app/types/index.ts; every field is
required there. -/
structure HeatZone where
  id : Int
  geometry : Geometry
  heat_score : Rat
  temp_celsius : Rat
  priority : String
  area_sqm : Rat
deriving DecidableEq, Repr

/-- The ShadeZone interface of frontend/app/types/index.ts; geometry, center,
temp_celsius and area_sqm are optional there, the score fields are required. -/
structure ShadeZone where
  id : Int
  geometry : Option Geometry
  center : Option Center
  heat_score : Rat
  temp_celsius : Option Rat
  shade_coverage : Rat
  shade_deficit : Rat
  combined_score : Rat
  priority : String
  area_sqm : Option Rat
deriving DecidableEq, Repr

/-- The getHeatColor ladder of ShadeLayer.tsx lines 48 to 52. -/
def getHeatColor (heatScore : Rat) : String :=
  if heatScore ≥ 80 then "#dc2626"
  else if heatScore ≥ 60 then "#f97316"
  else "#fbbf24"

/-- The getColor ladder of HeatZoneLayer (src/unnamed/part_001 lines 26 to 30). -/
def heatZoneLayerGetColor (score : Rat) : String :=
  if score ≥ 80 then "#dc2626"
  else if score ≥ 60 then "#f97316"
  else "#fbbf24"

/-- The getShadeColor ladder of ShadeLayer.tsx lines 55 to 59. -/
def getShadeColor (shadeCoverage : Rat) : String :=
  if shadeCoverage ≥ 70 then "#16a34a"
  else if shadeCoverage ≥ 40 then "#ca8a04"
  else "#dc2626"

/-- The getDeficitColor ladder of ShadeLayer.tsx lines 62 to 66. -/
def getDeficitColor (shadeDeficit : Rat) : String :=
  if shadeDeficit ≥ 70 then "#dc2626"
  else if shadeDeficit ≥ 40 then "#f97316"
  else "#16a34a"

/-- The getCombinedColor ladder of ShadeLayer.tsx lines 69 to 74. -/
def getCombinedColor (combinedScore : Rat) : String :=
  if combinedScore ≥ 70 then "#dc2626"
  else if combinedScore ≥ 50 then "#f97316"
  else if combinedScore ≥ 30 then "#ca8a04"
  else "#16a34a"

/-- The per zone color dispatch of ShadeLayer.tsx lines 76 to 88: the switch
over colorMode, the default branch coinciding with the combined branch. -/
def getColor (colorMode : ColorMode) (zone : ShadeZone) : String :=
  match colorMode with
  | .heat => getHeatColor zone.heat_score
  | .coverage => getShadeColor zone.shade_coverage
  | .deficit => getDeficitColor zone.shade_deficit
  | .combined => getCombinedColor zone.combined_score

/-- A rendered map element produced by ShadeLayer for one zone: either a
Leaflet Polygon with its positions, or a Circle with its center and radius.
Both carry the stroke color and the fill color set in pathOptions. -/
inductive Rendered
  | polygon (positions : List (Rat × Rat)) (color fillColor : String)
  | circle (centerPos : Rat × Rat) (radius : Rat) (color fillColor : String)
deriving DecidableEq, Repr

/-- The coordinate swap applied by ShadeLayer.tsx line 108: a stored
[lon, lat] pair becomes the Leaflet position [lat, lon]. -/
def swapCoord (coord : Rat × Rat) : Rat × Rat :=
  (coord.2, coord.1)

/-- The per zone body of the zones.map callback of ShadeLayer.tsx lines 102 to
208. A zone with geometry renders a Polygon whose positions are the first
coordinate ring with each pair swapped (line 108 reads coordinates[0]); failing
that, a zone with a center renders a Circle of radius 50 at [lat, lon]
(lines 180 to 205); with neither, the callback returns null (line 207),
embedded as ok none. The source guard on line 104 also tests the coordinates
field for truthiness; in the embedded type coordinates is always present (as
in the TypeScript type) and an empty coordinates array is truthy in
JavaScript, so the guard reduces to presence of geometry, and when the array
is empty, coordinates[0] is undefined and the map call on line 108 throws a
TypeError, embedded as the error case. -/
def renderZone (colorMode : ColorMode) (zone : ShadeZone) :
    Except String (Option Rendered) :=
  match zone.geometry with
  | some g =>
      match g.coordinates with
      | [] => .error "TypeError"
      | ring :: _ =>
          .ok (some (.polygon (ring.map swapCoord)
            (getColor colorMode zone) (getColor colorMode zone)))
  | none =>
      match zone.center with
      | some c =>
          .ok (some (.circle (c.lat, c.lon) 50
            (getColor colorMode zone) (getColor colorMode zone)))
      | none => .ok none

/-- The whole ShadeLayer output: one element per zone, in order (an ok none
entry renders nothing in React, and a thrown TypeError aborts the render). -/
def shadeLayerRender (colorMode : ColorMode) (zones : List ShadeZone) :
    List (Except String (Option Rendered)) :=
  zones.map (renderZone colorMode)

/-- The geometric payload of a rendered element with the colors stripped:
used to state that the color mode influences colors only. -/
def renderedData : Rendered → List (Rat × Rat) ⊕ (Rat × Rat) × Rat
  | .polygon positions _ _ => .inl positions
  | .circle centerPos radius _ _ => .inr (centerPos, radius)

/-- Truthiness of the JavaScript test zs and zs.length greater than 0 on a
possibly null or undefined zone array, as in both MapView variants. -/
def hasZones {α : Type} (o : Option (List α)) : Bool :=
  match o with
  | some zs => decide (0 < zs.length)
  | none => false

/-- The showHeatLayer guard of frontend/app/components/MapView.tsx line 29. -/
def showHeatLayer (viewMode : ViewMode) (heatZones : Option (List HeatZone)) : Bool :=
  (viewMode == .heat) && hasZones heatZones

/-- The showShadeLayer guard of frontend/app/components/MapView.tsx line 30. -/
def showShadeLayer (viewMode : ViewMode) (shadeZones : Option (List ShadeZone)) : Bool :=
  ((viewMode == .shade) || (viewMode == .combined)) && hasZones shadeZones

/-- The Legend guard of frontend/app/components/MapView.tsx lines 57 to 59:
the legend is rendered exactly when some layer is shown. -/
def showLegend (viewMode : ViewMode) (heatZones : Option (List HeatZone))
    (shadeZones : Option (List ShadeZone)) : Bool :=
  showHeatLayer viewMode heatZones || showShadeLayer viewMode shadeZones

namespace MapViewAlt

/-- The showHeatLayer guard of the MapView variant in src/unnamed/part_002
line 33. -/
def showHeatLayer (viewMode : ViewMode) (heatZones : Option (List HeatZone)) : Bool :=
  (viewMode == .heat) && hasZones heatZones

/-- The showShadeLayer guard of the MapView variant in src/unnamed/part_002
lines 36 to 40: the shade layer also substitutes for the heat layer in heat
view when only shade data is present. -/
def showShadeLayer (viewMode : ViewMode) (heatZones : Option (List HeatZone))
    (shadeZones : Option (List ShadeZone)) : Bool :=
  hasZones shadeZones &&
    ((viewMode == .shade) || (viewMode == .combined) ||
      ((viewMode == .heat) && !hasZones heatZones))

/-- The Legend guard of the MapView variant in src/unnamed/part_002
lines 69 to 71. -/
def showLegend (viewMode : ViewMode) (heatZones : Option (List HeatZone))
    (shadeZones : Option (List ShadeZone)) : Bool :=
  showHeatLayer viewMode heatZones || showShadeLayer viewMode heatZones shadeZones

end MapViewAlt

/-- The hourly coverage rows of frontend/app/types/index.ts. -/
structure HourlyCoverage where
  hour : Int
  coverage_percent : Rat
  building_shade_percent : Option Rat
  tree_shade_percent : Option Rat
  is_night : Bool
deriving DecidableEq, Repr

/-- The heat analysis response of frontend/app/types/index.ts, metadata
inlined. -/
structure AnalyzeResponse where
  location : String
  analysis_date : String
  heat_zones : List HeatZone
  total_zones_analyzed : Int
  data_source : String
deriving DecidableEq, Repr

/-- The combined analysis response of frontend/app/types/index.ts, metadata
inlined. -/
structure ShadeAnalysisResponse where
  location : String
  analysis_date : String
  simulation_date : String
  zones : List ShadeZone
  hourly_coverage : List HourlyCoverage
  total_zones_analyzed : Int
  avg_shade_deficit : Rat
  high_deficit_count : Int
  buildings_analyzed : Option Int
  trees_analyzed : Option Int
  metadata_simulation_date : String
deriving DecidableEq, Repr

/-- The analysis mode of SearchForm (src/unnamed/part_000 line 5). -/
inductive AnalysisMode
  | heat
  | combined
deriving DecidableEq, Repr

/-- The React state of the Home component in frontend/app/page.tsx
lines 15 to 21. -/
structure HomeState where
  loading : Bool
  error : Option String
  heatResult : Option AnalyzeResponse
  shadeResult : Option ShadeAnalysisResponse
  viewMode : ViewMode
  selectedHour : Int
  analysisMode : AnalysisMode
deriving DecidableEq, Repr

/-- A value thrown inside the try block of handleAnalyze: a JavaScript Error
carrying its message, or any non Error value. -/
inductive Thrown
  | jsError (msg : String)
  | otherValue
deriving DecidableEq, Repr

/-- The observable outcome of the single fetch performed by handleAnalyze:
the response resolved with ok status and a parsed body, resolved with a non
2xx status, or the fetch (or body parsing) rejected with a thrown value. -/
inductive FetchOutcome (α : Type)
  | resolvedOk (data : α)
  | resolvedNotOk
  | rejected (e : Thrown)
deriving DecidableEq, Repr

/-- One handleAnalyze invocation: the chosen analysis mode determines which
endpoint is fetched, so the outcome carries the matching response type. -/
inductive AnalyzeOutcome
  | heat (o : FetchOutcome AnalyzeResponse)
  | combined (o : FetchOutcome ShadeAnalysisResponse)
deriving DecidableEq, Repr

/-- The mode argument that produced a given outcome. -/
def modeOf : AnalyzeOutcome → AnalysisMode
  | .heat _ => .heat
  | .combined _ => .combined

/-- The message computed by the catch block of handleAnalyze
(frontend/app/page.tsx line 66): err.message when the thrown value is an
Error instance, the fallback string otherwise. -/
def thrownMessage : Thrown → String
  | .jsError msg => msg
  | .otherValue => "An error occurred"

/-- The handleAnalyze state transition of frontend/app/page.tsx lines 23
to 70, as a function of the single fetch outcome. The body first sets
loading, clears error and records the mode; a resolved ok response stores
the result, clears the other result and switches the view; a non 2xx
response throws the generic Error for its mode, and the catch block stores
the thrown message in error; the finally block clears loading. Exactly one
fetch is issued per invocation, so a failed call consumes its outcome with
no retry. -/
def handleAnalyze (call : AnalyzeOutcome) (s : HomeState) : HomeState :=
  let s1 : HomeState :=
    { s with loading := true, error := none, analysisMode := modeOf call }
  let s2 : HomeState :=
    match call with
    | .heat (.resolvedOk data) =>
        { s1 with heatResult := some data, shadeResult := none, viewMode := .heat }
    | .heat .resolvedNotOk =>
        { s1 with error := some (thrownMessage (.jsError "Failed to analyze heat zones")) }
    | .heat (.rejected e) =>
        { s1 with error := some (thrownMessage e) }
    | .combined (.resolvedOk data) =>
        { s1 with shadeResult := some data, heatResult := none, viewMode := .combined }
    | .combined .resolvedNotOk =>
        { s1 with error := some (thrownMessage (.jsError "Failed to analyze heat and shade zones")) }
    | .combined (.rejected e) =>
        { s1 with error := some (thrownMessage e) }
  { s2 with loading := false }

/-- Decides whether an invocation outcome is a failed analysis request:
either a non 2xx response or a rejected fetch. -/
def isFailureOutcome : AnalyzeOutcome → Bool
  | .heat (.resolvedOk _) => false
  | .combined (.resolvedOk _) => false
  | _ => true

/-- Modelled from the spec: the backend zone producer (the Python backend
under backend/agents, backend/tools and backend/api is not among the source
files; only its README is). Per the spec data model a zone is either polygon
bounded or point centered, the center being used when geometry is absent, so
the producer emits each ShadeZone from exactly one of the two shapes. -/
inductive BackendZoneShape
  | polygonBounded (g : Geometry)
  | pointCentered (c : Center)
deriving DecidableEq, Repr

/-- Modelled from the spec: serialization of a backend zone into the
ShadeZone record consumed by the frontend, filling geometry or center from
the shape and leaving the other absent. -/
def emitShadeZone (shape : BackendZoneShape) (id : Int)
    (heat_score shade_coverage shade_deficit combined_score : Rat)
    (priority : String) : ShadeZone :=
  match shape with
  | .polygonBounded g =>
      { id := id, geometry := some g, center := none, heat_score := heat_score,
        temp_celsius := none, shade_coverage := shade_coverage,
        shade_deficit := shade_deficit, combined_score := combined_score,
        priority := priority, area_sqm := none }
  | .pointCentered c =>
      { id := id, geometry := none, center := some c, heat_score := heat_score,
        temp_celsius := none, shade_coverage := shade_coverage,
        shade_deficit := shade_deficit, combined_score := combined_score,
        priority := priority, area_sqm := none }

/-- C1: for every heat score, getHeatColor returns the high band color
dc2626 on [80,100], the medium band color f97316 on [60,80), and the low
band color fbbf24 on [40,60); in particular 85.5 yields dc2626; and the
ladder coincides with the getColor ladder of HeatZoneLayer everywhere. -/
theorem heatColor_ladder (s : Rat) :
    (80 ≤ s ∧ s ≤ 100 → getHeatColor s = "#dc2626") ∧
    (60 ≤ s ∧ s < 80 → getHeatColor s = "#f97316") ∧
    (40 ≤ s ∧ s < 60 → getHeatColor s = "#fbbf24") ∧
    getHeatColor (85.5 : Rat) = "#dc2626" ∧
    getHeatColor s = heatZoneLayerGetColor s := by
  refine ⟨?_, ?_, ?_, by norm_num [getHeatColor], rfl⟩
  · rintro ⟨h1, -⟩
    unfold getHeatColor
    rw [if_pos h1]
  · rintro ⟨h1, h2⟩
    unfold getHeatColor
    rw [if_neg (not_le.mpr h2), if_pos h1]
  · rintro ⟨-, h2⟩
    unfold getHeatColor
    rw [if_neg (not_le.mpr (by linarith)), if_neg (not_le.mpr h2)]

/-- Witness for C1 at the concrete scores 85.5, 65 and 45. -/
theorem heatColor_ladder_witness :
    getHeatColor 85.5 = "#dc2626" ∧ getHeatColor 65 = "#f97316" ∧
    getHeatColor 45 = "#fbbf24" :=
  ⟨(heatColor_ladder 85.5).1 ⟨by norm_num, by norm_num⟩,
   (heatColor_ladder 65).2.1 ⟨by norm_num, by norm_num⟩,
   (heatColor_ladder 45).2.2.1 ⟨by norm_num, by norm_num⟩⟩

/-- C2: on [0,100] the four interval conditions with boundaries 30, 50 and
70 are exhaustive, and getCombinedColor takes each of its four colors
exactly on the corresponding interval, so every score lands in exactly one
band. -/
theorem combinedColor_partition (s : Rat) (_h : 0 ≤ s ∧ s ≤ 100) :
    (70 ≤ s ∨ (50 ≤ s ∧ s < 70) ∨ (30 ≤ s ∧ s < 50) ∨ s < 30) ∧
    (getCombinedColor s = "#dc2626" ↔ 70 ≤ s) ∧
    (getCombinedColor s = "#f97316" ↔ 50 ≤ s ∧ s < 70) ∧
    (getCombinedColor s = "#ca8a04" ↔ 30 ≤ s ∧ s < 50) ∧
    (getCombinedColor s = "#16a34a" ↔ s < 30) := by
  unfold getCombinedColor
  split_ifs with h1 h2 h3
  · exact ⟨Or.inl h1,
      iff_of_true rfl h1,
      iff_of_false (by decide) (fun hh => by linarith [hh.2]),
      iff_of_false (by decide) (fun hh => by linarith [hh.2]),
      iff_of_false (by decide) (fun hh => by linarith [hh])⟩
  · exact ⟨Or.inr (Or.inl ⟨h2, lt_of_not_ge h1⟩),
      iff_of_false (by decide) h1,
      iff_of_true rfl ⟨h2, lt_of_not_ge h1⟩,
      iff_of_false (by decide) (fun hh => by linarith [hh.2]),
      iff_of_false (by decide) (fun hh => by linarith [hh])⟩
  · exact ⟨Or.inr (Or.inr (Or.inl ⟨h3, lt_of_not_ge h2⟩)),
      iff_of_false (by decide) h1,
      iff_of_false (by decide) (fun hh => absurd hh.1 h2),
      iff_of_true rfl ⟨h3, lt_of_not_ge h2⟩,
      iff_of_false (by decide) (fun hh => by linarith [hh])⟩
  · exact ⟨Or.inr (Or.inr (Or.inr (lt_of_not_ge h3))),
      iff_of_false (by decide) h1,
      iff_of_false (by decide) (fun hh => absurd hh.1 h2),
      iff_of_false (by decide) (fun hh => absurd hh.1 h3),
      iff_of_true rfl (lt_of_not_ge h3)⟩

/-- Witness for C2 at the concrete score 68, which lands in the high band. -/
theorem combinedColor_partition_witness :
    getCombinedColor 68 = "#f97316" :=
  ((combinedColor_partition 68 ⟨by norm_num, by norm_num⟩).2.2.1).mpr
    ⟨by norm_num, by norm_num⟩

/-- C3: the coverage ladder maps 70 and above to green, [40,70) to yellow
and below 40 to red, while the deficit ladder maps 70 and above to red,
[40,70) to orange and below 40 to green; in particular coverage 45 is
moderate yellow and deficit 72 is critical red. -/
theorem shadeColor_deficitColor_polarity (c d : Rat) :
    (70 ≤ c → getShadeColor c = "#16a34a") ∧
    (40 ≤ c ∧ c < 70 → getShadeColor c = "#ca8a04") ∧
    (c < 40 → getShadeColor c = "#dc2626") ∧
    (70 ≤ d → getDeficitColor d = "#dc2626") ∧
    (40 ≤ d ∧ d < 70 → getDeficitColor d = "#f97316") ∧
    (d < 40 → getDeficitColor d = "#16a34a") ∧
    getShadeColor 45 = "#ca8a04" ∧ getDeficitColor 72 = "#dc2626" := by
  refine ⟨?_, ?_, ?_, ?_, ?_, ?_, by norm_num [getShadeColor],
    by norm_num [getDeficitColor]⟩
  · intro h1
    unfold getShadeColor
    rw [if_pos h1]
  · rintro ⟨h1, h2⟩
    unfold getShadeColor
    rw [if_neg (not_le.mpr h2), if_pos h1]
  · intro h2
    unfold getShadeColor
    rw [if_neg (not_le.mpr (by linarith)), if_neg (not_le.mpr h2)]
  · intro h1
    unfold getDeficitColor
    rw [if_pos h1]
  · rintro ⟨h1, h2⟩
    unfold getDeficitColor
    rw [if_neg (not_le.mpr h2), if_pos h1]
  · intro h2
    unfold getDeficitColor
    rw [if_neg (not_le.mpr (by linarith)), if_neg (not_le.mpr h2)]

/-- Witness for C3 at the scenario values coverage 45 and deficit 72. -/
theorem shadeColor_deficitColor_polarity_witness :
    getShadeColor 45 = "#ca8a04" ∧ getDeficitColor 72 = "#dc2626" :=
  ⟨(shadeColor_deficitColor_polarity 45 72).2.1 ⟨by norm_num, by norm_num⟩,
   (shadeColor_deficitColor_polarity 45 72).2.2.2.1 (by norm_num)⟩

/-- C4: the color mode dispatch applies exactly one ladder to exactly one
score field of the zone per mode, and switching the mode changes at most
the colors of the rendered element, never the geometric data derived from
the zone (and the zone record itself is never modified, rendering being a
pure function of it). -/
theorem getColor_pure_dispatch (z : ShadeZone) :
    getColor .coverage z = getShadeColor z.shade_coverage ∧
    getColor .deficit z = getDeficitColor z.shade_deficit ∧
    getColor .combined z = getCombinedColor z.combined_score ∧
    getColor .heat z = getHeatColor z.heat_score ∧
    ∀ m₁ m₂ : ColorMode,
      (renderZone m₁ z).map (Option.map renderedData) =
        (renderZone m₂ z).map (Option.map renderedData) := by
  refine ⟨rfl, rfl, rfl, rfl, ?_⟩
  intro m₁ m₂
  rcases hg : z.geometry with - | g
  · rcases hc : z.center with - | c
    · simp [renderZone, hg, hc]
    · simp [renderZone, hg, hc, Except.map, renderedData]
  · rcases hr : g.coordinates with - | ⟨ring, rest⟩
    · simp [renderZone, hg, hr]
    · simp [renderZone, hg, hr, Except.map, renderedData]

/-- C5: every ShadeZone emitted by the spec modelled backend producer has
exactly one of geometry and center present, never both and never neither. -/
theorem emitShadeZone_geometry_xor_center (shape : BackendZoneShape) (id : Int)
    (hs sc sd cs : Rat) (p : String) :
    Xor' ((emitShadeZone shape id hs sc sd cs p).geometry.isSome = true)
      ((emitShadeZone shape id hs sc sd cs p).center.isSome = true) := by
  cases shape <;> simp [emitShadeZone, Xor']

/-- C6: a zone with neither geometry nor center produces no rendered element
in ShadeLayer: the per zone callback returns null (ok none), it does not
throw. -/
theorem renderZone_skips_zone_without_shape (m : ColorMode) (z : ShadeZone)
    (hg : z.geometry = none) (hc : z.center = none) :
    renderZone m z = .ok none := by
  simp [renderZone, hg, hc]

/-- A concrete ShadeZone with neither geometry nor center. -/
def zoneNeitherEx : ShadeZone :=
  { id := 0, geometry := none, center := none, heat_score := 50,
    temp_celsius := none, shade_coverage := 50, shade_deficit := 50,
    combined_score := 50, priority := "medium", area_sqm := none }

/-- Witness for C6 at a concrete shapeless zone. -/
theorem renderZone_skips_zone_without_shape_witness :
    renderZone ColorMode.combined zoneNeitherEx = .ok none :=
  renderZone_skips_zone_without_shape ColorMode.combined zoneNeitherEx rfl rfl

/-- C7: a zone with geometry renders a Polygon whose position list is the
first coordinate ring with [lon, lat] swapped to [lat, lon], hence with
exactly as many points as that ring; a zone with only a center renders a
single Circle at [lat, lon]. -/
theorem renderZone_preserves_geometry (m : ColorMode) (z : ShadeZone) :
    (∀ g ring rest, z.geometry = some g → g.coordinates = ring :: rest →
      renderZone m z =
        .ok (some (.polygon (ring.map swapCoord) (getColor m z) (getColor m z))) ∧
      (ring.map swapCoord).length = ring.length) ∧
    (∀ c, z.geometry = none → z.center = some c →
      renderZone m z =
        .ok (some (.circle (c.lat, c.lon) 50 (getColor m z) (getColor m z)))) := by
  constructor
  · intro g ring rest hg hr
    refine ⟨?_, List.length_map _ _⟩
    simp [renderZone, hg, hr]
  · intro c hg hc
    simp [renderZone, hg, hc]

/-- A concrete triangle ring of [lon, lat] pairs, closed. -/
def geomTriangleEx : Geometry :=
  { gtype := "Polygon",
    coordinates := [[((10 : Rat), (20 : Rat)), (30, 40), (10, 20)]] }

/-- A concrete zone carrying the triangle geometry and no center. -/
def zonePolyEx : ShadeZone :=
  { id := 1, geometry := some geomTriangleEx, center := none, heat_score := 90,
    temp_celsius := none, shade_coverage := 10, shade_deficit := 80,
    combined_score := 75, priority := "critical", area_sqm := none }

/-- A concrete zone carrying only a center point. -/
def zonePointEx : ShadeZone :=
  { id := 2, geometry := none, center := some { lat := 5, lon := 6 },
    heat_score := 50, temp_celsius := none, shade_coverage := 50,
    shade_deficit := 20, combined_score := 20, priority := "low",
    area_sqm := none }

/-- Witness for C7: the triangle zone renders a three point polygon and the
center only zone renders one circle at the swapped center. -/
theorem renderZone_preserves_geometry_witness :
    renderZone ColorMode.combined zonePolyEx =
      .ok (some (.polygon ([((10 : Rat), (20 : Rat)), (30, 40), (10, 20)].map swapCoord)
        (getColor ColorMode.combined zonePolyEx)
        (getColor ColorMode.combined zonePolyEx))) ∧
    ([((10 : Rat), (20 : Rat)), (30, 40), (10, 20)].map swapCoord).length = 3 ∧
    renderZone ColorMode.combined zonePointEx =
      .ok (some (.circle (5, 6) 50 (getColor ColorMode.combined zonePointEx)
        (getColor ColorMode.combined zonePointEx))) := by
  have h1 := (renderZone_preserves_geometry ColorMode.combined zonePolyEx).1
    geomTriangleEx [((10 : Rat), (20 : Rat)), (30, 40), (10, 20)] [] rfl rfl
  have h2 := (renderZone_preserves_geometry ColorMode.combined zonePointEx).2
    { lat := 5, lon := 6 } rfl rfl
  exact ⟨h1.1, h1.2.trans rfl, h2⟩

/-- C8: with an empty (or absent) zone list and no non empty heat zone list,
neither MapView variant shows the heat layer, the shade layer or the legend:
both layer guards require a non empty zone array and the legend is rendered
only when some layer is shown. -/
theorem empty_zones_show_no_layers (vm : ViewMode)
    (hz : Option (List HeatZone)) (sz : Option (List ShadeZone))
    (hhz : hz = none ∨ hz = some []) (hsz : sz = none ∨ sz = some []) :
    showHeatLayer vm hz = false ∧ showShadeLayer vm sz = false ∧
    showLegend vm hz sz = false ∧
    MapViewAlt.showHeatLayer vm hz = false ∧
    MapViewAlt.showShadeLayer vm hz sz = false ∧
    MapViewAlt.showLegend vm hz sz = false := by
  have h1 : hasZones hz = false := by
    rcases hhz with h | h <;> simp [hasZones, h]
  have h2 : hasZones sz = false := by
    rcases hsz with h | h <;> simp [hasZones, h]
  simp [showHeatLayer, showShadeLayer, showLegend, MapViewAlt.showHeatLayer,
    MapViewAlt.showShadeLayer, MapViewAlt.showLegend, h1, h2]

/-- Witness for C8 at the empty response in heat view. -/
theorem empty_zones_show_no_layers_witness :
    showLegend ViewMode.heat (some []) (some []) = false ∧
    MapViewAlt.showLegend ViewMode.heat (some []) (some []) = false :=
  ⟨(empty_zones_show_no_layers ViewMode.heat (some []) (some [])
      (Or.inr rfl) (Or.inr rfl)).2.2.1,
   (empty_zones_show_no_layers ViewMode.heat (some []) (some [])
      (Or.inr rfl) (Or.inr rfl)).2.2.2.2.2⟩

/-- The initial Home state of frontend/app/page.tsx lines 15 to 21. -/
def initialHomeState : HomeState :=
  { loading := false, error := none, heatResult := none, shadeResult := none,
    viewMode := .heat, selectedHour := 14, analysisMode := .heat }

/-- C9 counterexample: a fetch rejection in heat mode (a network failure,
here a browser TypeError with the message Failed to fetch) stores the
message of the thrown error, not the generic heat mode message, so the
claim that every failed request yields the generic message is false. -/
theorem handleAnalyze_rejection_counterexample :
    (handleAnalyze (.heat (.rejected (.jsError "Failed to fetch")))
        initialHomeState).error = some "Failed to fetch" ∧
    some "Failed to fetch" ≠ some "Failed to analyze heat zones" :=
  ⟨rfl, by decide⟩

/-- C9 amended: a non 2xx response stores the generic message of its mode;
a fetch rejection stores the thrown error message (the fallback string for
a non Error throw); and on every failure outcome heatResult and shadeResult
are left unchanged and loading is cleared, with no retry (one fetch outcome
is consumed per invocation). -/
theorem handleAnalyze_failure_behavior (s : HomeState) (e : Thrown) :
    (handleAnalyze (.heat .resolvedNotOk) s).error =
      some "Failed to analyze heat zones" ∧
    (handleAnalyze (.combined .resolvedNotOk) s).error =
      some "Failed to analyze heat and shade zones" ∧
    (handleAnalyze (.heat (.rejected e)) s).error = some (thrownMessage e) ∧
    (handleAnalyze (.combined (.rejected e)) s).error = some (thrownMessage e) ∧
    (∀ call, isFailureOutcome call = true →
      (handleAnalyze call s).heatResult = s.heatResult ∧
      (handleAnalyze call s).shadeResult = s.shadeResult ∧
      (handleAnalyze call s).loading = false) := by
  refine ⟨rfl, rfl, rfl, rfl, ?_⟩
  intro call hfail
  rcases call with o | o <;> rcases o with d | - | e₂
  · simp [isFailureOutcome] at hfail
  · exact ⟨rfl, rfl, rfl⟩
  · exact ⟨rfl, rfl, rfl⟩
  · simp [isFailureOutcome] at hfail
  · exact ⟨rfl, rfl, rfl⟩
  · exact ⟨rfl, rfl, rfl⟩

/-- Witness for C9 amended at a non 2xx heat request from the initial
state. -/
theorem handleAnalyze_failure_behavior_witness :
    (handleAnalyze (.heat .resolvedNotOk) initialHomeState).error =
      some "Failed to analyze heat zones" ∧
    (handleAnalyze (.heat .resolvedNotOk) initialHomeState).heatResult = none ∧
    (handleAnalyze (.heat .resolvedNotOk) initialHomeState).shadeResult = none := by
  have h := handleAnalyze_failure_behavior initialHomeState Thrown.otherValue
  have h2 := h.2.2.2.2 (.heat .resolvedNotOk) rfl
  exact ⟨h.1, h2.1, h2.2.1⟩

/-- A concrete zone with both fields present whose geometry carries an empty
coordinates array. -/
def zoneEmptyRingEx : ShadeZone :=
  { id := 4, geometry := some { gtype := "Polygon", coordinates := [] },
    center := some { lat := 7, lon := 8 }, heat_score := 20,
    temp_celsius := none, shade_coverage := 80, shade_deficit := 10,
    combined_score := 15, priority := "low", area_sqm := none }

/-- C10 counterexample: a both present zone whose geometry has an empty
coordinates array does not render as a polygon: the empty array passes the
truthiness guard, coordinates[0] is undefined and the map call throws a
TypeError, so nothing is rendered for the zone. -/
theorem renderZone_both_present_counterexample :
    zoneEmptyRingEx.geometry.isSome = true ∧
    zoneEmptyRingEx.center.isSome = true ∧
    renderZone ColorMode.combined zoneEmptyRingEx = .error "TypeError" :=
  ⟨rfl, rfl, rfl⟩

/-- C10 amended: for a zone with both geometry and center present, the
geometry branch is tested first: when the geometry has a first coordinate
ring the zone renders as the polygon built from that ring and the center is
ignored; when the coordinates array is empty the render throws a TypeError
instead of rendering a polygon; in every case the center branch is never
reached, so a both present zone never produces a point marker or two
renderings. -/
theorem renderZone_geometry_takes_precedence (m : ColorMode) (z : ShadeZone)
    (g : Geometry) (c : Center) (hg : z.geometry = some g)
    (_hc : z.center = some c) :
    (∀ ring rest, g.coordinates = ring :: rest →
      renderZone m z =
        .ok (some (.polygon (ring.map swapCoord) (getColor m z) (getColor m z)))) ∧
    (g.coordinates = [] → renderZone m z = .error "TypeError") ∧
    (∀ ctr r col fc, renderZone m z ≠ .ok (some (.circle ctr r col fc))) := by
  refine ⟨?_, ?_, ?_⟩
  · intro ring rest hr
    simp [renderZone, hg, hr]
  · intro hr
    simp [renderZone, hg, hr]
  · intro ctr r col fc hcon
    rcases hr : g.coordinates with - | ⟨ring, rest⟩ <;>
      simp [renderZone, hg, hr] at hcon

/-- A concrete closed square ring of [lon, lat] pairs. -/
def geomSquareEx : Geometry :=
  { gtype := "Polygon",
    coordinates := [[((0 : Rat), (0 : Rat)), (1, 0), (1, 1), (0, 1), (0, 0)]] }

/-- A concrete zone carrying both the square geometry and a center point. -/
def zoneBothEx : ShadeZone :=
  { id := 3, geometry := some geomSquareEx, center := some { lat := 7, lon := 8 },
    heat_score := 20, temp_celsius := none, shade_coverage := 80,
    shade_deficit := 10, combined_score := 15, priority := "low",
    area_sqm := none }

/-- Witness for C10 amended: the both present square zone renders the
polygon from its first ring and is not the circle its center would have
produced. -/
theorem renderZone_geometry_takes_precedence_witness :
    renderZone ColorMode.combined zoneBothEx =
      .ok (some (.polygon ([((0 : Rat), (0 : Rat)), (1, 0), (1, 1), (0, 1), (0, 0)].map swapCoord)
        (getColor ColorMode.combined zoneBothEx)
        (getColor ColorMode.combined zoneBothEx))) ∧
    renderZone ColorMode.combined zoneBothEx ≠
      .ok (some (.circle (7, 8) 50 "#16a34a" "#16a34a")) := by
  have h := renderZone_geometry_takes_precedence ColorMode.combined zoneBothEx
    geomSquareEx { lat := 7, lon := 8 } rfl rfl
  exact ⟨h.1 [((0 : Rat), (0 : Rat)), (1, 0), (1, 1), (0, 1), (0, 0)] [] rfl,
    h.2.2 (7, 8) 50 "#16a34a" "#16a34a"⟩

end UrbanCooling
